import Mathlib

/-!
Verification development for the scraproxy repository: a shallow embedding of
the browse-session orchestration core (FastAPI variant, `app.py`), the Flask
variant (`main.py`) with its in-memory cache and auth middleware, and the
cache-key helpers (`utils.py`), together with theorems settling the frozen
claims about the natural-language specification.
-/

namespace Scraproxy

/-! ## Generic helpers -/

/-- First-match association lookup, modelling Python dict read (dicts keep
insertion order and have unique keys; the model allows any list). -/
def assocFind (l : List (String × α)) (k : String) : Option α :=
  (l.find? (fun p => p.1 == k)).map (fun p => p.2)

/-- Python `d.get(k, default)` on a header mapping. -/
def headerGet (hs : List (String × String)) (k d : String) : String :=
  match assocFind hs k with
  | some v => v
  | none => d

/-- Whether `needle` starts `hay` (on character lists). -/
def listStartsWith : List Char → List Char → Bool
  | [], _ => true
  | _ :: _, [] => false
  | a :: as, b :: bs => a == b && listStartsWith as bs

/-- Whether `needle` occurs as a contiguous run of `hay` (character lists);
models the Python `needle in hay` substring test. -/
def listContainsSub : List Char → List Char → Bool
  | needle, [] => needle.isEmpty
  | needle, c :: rest => listStartsWith needle (c :: rest) || listContainsSub needle rest

/-- Python substring containment `needle in hay` for strings. -/
def strContains (hay needle : String) : Bool :=
  listContainsSub needle.data hay.data

/-- Python `str(x)` on an `Optional[str]`: `None` renders as `"None"`. -/
def pyStrOpt : Option String → String
  | some s => s
  | none => "None"

/-- Python `str(b)` on a bool: `True` / `False`. -/
def pyBool : Bool → String
  | true => "True"
  | false => "False"

/-! ## UTF-8 encoding (`data.encode("utf-8")`) -/

/-- UTF-8 encoding of one Unicode code point as a byte list. -/
def utf8Char (c : Char) : List Nat :=
  let n := c.toNat
  if n < 128 then [n]
  else if n < 2048 then [192 + n / 64, 128 + n % 64]
  else if n < 65536 then [224 + n / 4096, 128 + (n / 64) % 64, 128 + n % 64]
  else [240 + n / 262144, 128 + (n / 4096) % 64, 128 + (n / 64) % 64, 128 + n % 64]

/-- UTF-8 encoding of a string as a byte list. -/
def utf8Encode (s : String) : List Nat :=
  (s.data.map utf8Char).flatten

/-! ## MD5 (`hashlib.md5(...).hexdigest()`) -/

/-- Per-round left-rotation amounts of MD5. -/
def md5s : List Nat :=
  [7, 12, 17, 22, 7, 12, 17, 22, 7, 12, 17, 22, 7, 12, 17, 22,
   5, 9, 14, 20, 5, 9, 14, 20, 5, 9, 14, 20, 5, 9, 14, 20,
   4, 11, 16, 23, 4, 11, 16, 23, 4, 11, 16, 23, 4, 11, 16, 23,
   6, 10, 15, 21, 6, 10, 15, 21, 6, 10, 15, 21, 6, 10, 15, 21]

/-- MD5 sine-derived additive constants. -/
def md5K : List Nat :=
  [0xd76aa478, 0xe8c7b756, 0x242070db, 0xc1bdceee,
   0xf57c0faf, 0x4787c62a, 0xa8304613, 0xfd469501,
   0x698098d8, 0x8b44f7af, 0xffff5bb1, 0x895cd7be,
   0x6b901122, 0xfd987193, 0xa679438e, 0x49b40821,
   0xf61e2562, 0xc040b340, 0x265e5a51, 0xe9b6c7aa,
   0xd62f105d, 0x02441453, 0xd8a1e681, 0xe7d3fbc8,
   0x21e1cde6, 0xc33707d6, 0xf4d50d87, 0x455a14ed,
   0xa9e3e905, 0xfcefa3f8, 0x676f02d9, 0x8d2a4c8a,
   0xfffa3942, 0x8771f681, 0x6d9d6122, 0xfde5380c,
   0xa4beea44, 0x4bdecfa9, 0xf6bb4b60, 0xbebfbc70,
   0x289b7ec6, 0xeaa127fa, 0xd4ef3085, 0x04881d05,
   0xd9d4d039, 0xe6db99e5, 0x1fa27cf8, 0xc4ac5665,
   0xf4292244, 0x432aff97, 0xab9423a7, 0xfc93a039,
   0x655b59c3, 0x8f0ccc92, 0xffeff47d, 0x85845dd1,
   0x6fa87e4f, 0xfe2ce6e0, 0xa3014314, 0x4e0811a1,
   0xf7537e82, 0xbd3af235, 0x2ad7d2bb, 0xeb86d391]

/-- 32-bit all-ones mask. -/
def mask32 : Nat := 4294967295

/-- 32-bit left rotation. -/
def rotl32 (x n : Nat) : Nat :=
  ((x <<< n) ||| (x >>> (32 - n))) &&& mask32

/-- Little-endian byte decomposition (`k` bytes) of a natural number. -/
def leBytes : Nat → Nat → List Nat
  | 0, _ => []
  | k + 1, n => (n % 256) :: leBytes k (n / 256)

/-- MD5 padding: append `0x80`, zero-pad to 56 mod 64, then the 64-bit
little-endian bit length. -/
def md5Pad (msg : List Nat) : List Nat :=
  let len := msg.length
  let padZeros := (119 - len % 64) % 64
  msg ++ [128] ++ List.replicate padZeros 0 ++ leBytes 8 ((len * 8) % 18446744073709551616)

/-- Group four little-endian bytes into 32-bit message words. -/
def md5Words : List Nat → List Nat
  | a :: b :: c :: d :: rest => (a + 256 * b + 65536 * c + 16777216 * d) :: md5Words rest
  | _ => []

/-- One MD5 compression round over a 64-byte chunk. -/
def md5Chunk (chunk : List Nat) (st : Nat × Nat × Nat × Nat) : Nat × Nat × Nat × Nat :=
  let M := md5Words chunk
  let a0 := st.1
  let b0 := st.2.1
  let c0 := st.2.2.1
  let d0 := st.2.2.2
  let step := fun (abcd : Nat × Nat × Nat × Nat) (i : Nat) =>
    let A := abcd.1
    let B := abcd.2.1
    let C := abcd.2.2.1
    let D := abcd.2.2.2
    let F :=
      if i < 16 then (B &&& C) ||| ((B ^^^ mask32) &&& D)
      else if i < 32 then (D &&& B) ||| ((D ^^^ mask32) &&& C)
      else if i < 48 then B ^^^ C ^^^ D
      else C ^^^ (B ||| (D ^^^ mask32))
    let g :=
      if i < 16 then i
      else if i < 32 then (5 * i + 1) % 16
      else if i < 48 then (3 * i + 5) % 16
      else (7 * i) % 16
    let Fv := (F + A + md5K.getD i 0 + M.getD g 0) % 4294967296
    (D, (B + rotl32 Fv (md5s.getD i 0)) % 4294967296, B, C)
  let r := (List.range 64).foldl step (a0, b0, c0, d0)
  ((a0 + r.1) % 4294967296, (b0 + r.2.1) % 4294967296,
   (c0 + r.2.2.1) % 4294967296, (d0 + r.2.2.2) % 4294967296)

/-- Fold the MD5 compression over all 64-byte chunks. -/
def md5Chunks (l : List Nat) (st : Nat × Nat × Nat × Nat) : Nat × Nat × Nat × Nat :=
  match l with
  | [] => st
  | x :: xs => md5Chunks ((x :: xs).drop 64) (md5Chunk ((x :: xs).take 64) st)
termination_by l.length
decreasing_by simp; omega

/-- Lowercase hexadecimal digit. -/
def hexDigit (n : Nat) : Char :=
  "0123456789abcdef".data.getD n '0'

/-- Two-digit lowercase hex of one byte. -/
def byteHex (b : Nat) : String :=
  String.mk [hexDigit (b / 16), hexDigit (b % 16)]

/-- Little-endian lowercase hex rendering of a 32-bit word. -/
def wordLEHex (w : Nat) : String :=
  String.join ((leBytes 4 w).map byteHex)

/-- MD5 hex digest of a byte list (RFC 1321). -/
def md5Hex (msg : List Nat) : String :=
  let r := md5Chunks (md5Pad msg) (1732584193, 4023233417, 2562383102, 271733878)
  wordLEHex r.1 ++ wordLEHex r.2.1 ++ wordLEHex r.2.2.1 ++ wordLEHex r.2.2.2

/-! ## Base64 (`base64.b64encode(...).decode("utf-8")`) -/

/-- The base64 alphabet. -/
def base64Alphabet : String :=
  "ABCDEFGHIJKLMNOPQRSTUVWXYZabcdefghijklmnopqrstuvwxyz0123456789+/"

/-- Character for one 6-bit group. -/
def b64Char (n : Nat) : Char :=
  base64Alphabet.data.getD n 'A'

/-- Standard base64 encoding of a byte list, with `=` padding. -/
def base64Encode : List Nat → String
  | [] => ""
  | [a] => String.mk [b64Char (a / 4), b64Char (a % 4 * 16), '=', '=']
  | [a, b] => String.mk [b64Char (a / 4), b64Char (a % 4 * 16 + b / 16), b64Char (b % 16 * 4), '=']
  | a :: b :: c :: rest =>
    String.mk [b64Char (a / 4), b64Char (a % 4 * 16 + b / 16),
               b64Char (b % 16 * 4 + c / 64), b64Char (c % 64)] ++ base64Encode rest

/-- Embeds `utils.generate_cache_key`: the MD5 hex digest of the UTF-8 bytes
of the input string. -/
def generate_cache_key (data : String) : String :=
  md5Hex (utf8Encode data)

/-- Embeds the key string built at `app.py` line 123:
`f"{url}-{method}-{post_data}-{browser_name}"`. -/
def browseKeyString (url method : String) (postData : Option String) (browserName : String) : String :=
  url ++ "-" ++ method ++ "-" ++ pyStrOpt postData ++ "-" ++ browserName

/-- The `/browse` cache fingerprint: `generate_cache_key` of the dash-joined
request tuple (`app.py` line 123). -/
def browseFingerprint (url method : String) (postData : Option String) (browserName : String) : String :=
  generate_cache_key (browseKeyString url method postData browserName)

/-! ## Event collector and session state (FastAPI `browse`, `app.py`)

Each Playwright capture call (`request.all_headers()`, `context.cookies()`,
`response.all_headers()`, `response.text()`, `response.body()`,
`response.security_details()`, `response.server_addr()`) is an external,
independently fallible effect; the embedding replaces each call by an
`Except String` oracle carried on the event, where `.error m` models the
call raising an exception whose `str(e)` is `m`. -/

deriving instance DecidableEq for Except

/-- A log entry of the `logs` sequence: a one-field dict in the source. -/
inductive LogEntry where
  | consoleMessage (s : String)
  | javascriptError (s : String)
  | warning (s : String)
  | error (s : String)
deriving DecidableEq, Repr

/-- A captured field value: either the fetched value or the explicit
sentinel string stored in its place after the capture raised. -/
inductive Captured (α : Type) where
  | ok (val : α)
  | unavailable (sentinel : String)
deriving DecidableEq, Repr

/-- Sentinel stored for failed header/cookie/security/server captures. -/
def unavailableSentinel : String := "Unavailable due to error"

/-- Sentinel stored for a failed response-body capture. -/
def bodyUnavailableSentinel : String := "Response body unavailable due to error"

/-- Models the `str(e)` of the AttributeError raised by
`response_headers.get(...)` when `response_headers` already holds the
sentinel string (CPython renders it with quotes, elided here). -/
def strGetAttributeError : String := "str object has no attribute get"

/-- The stored value of one fallible capture: source value on success,
the sentinel string on failure. -/
def capturedValue (sentinel : String) : Except String α → Captured α
  | .ok a => .ok a
  | .error _ => .unavailable sentinel

/-- The logs after one fallible capture: unchanged on success, with the
warning entry `Failed to fetch <what>: <str(e)>` appended on failure. -/
def captureLog (logs : List LogEntry) (what : String) : Except String α → List LogEntry
  | .ok _ => logs
  | .error m => logs ++ [.warning ("Failed to fetch " ++ what ++ ": " ++ m)]

/-- Security details as returned by `response.security_details()`. -/
abbrev SecurityInfo := Option (List (String × String))

/-- Server address as returned by `response.server_addr()`. -/
abbrev ServerAddr := Option (String × Nat)

/-- One observed page request (`page.on("request", log_request)` input).
`rid` models Python object identity of the request, used as the key of
`request_uuid_map`. -/
structure RequestEvent where
  rid : Nat
  url : String
  method : String
  resourceType : String
  redirectedFrom : Option String
  redirectedTo : Option String
  timing : List (String × Int)
  headersFetch : Except String (List (String × String))
  cookiesFetch : Except String (List (String × String))
deriving DecidableEq, Repr

/-- One observed page response (`page.on("response", log_response)` input).
`requestUrl` is `response.request.url`; `url` is `response.url`. -/
structure ResponseEvent where
  rid : Nat
  url : String
  requestUrl : String
  status : Nat
  resourceType : String
  redirectedFrom : Option String
  redirectedTo : Option String
  timing : List (String × Int)
  requestHeadersFetch : Except String (List (String × String))
  responseHeadersFetch : Except String (List (String × String))
  textFetch : Except String String
  bodyFetch : Except String (List Nat)
  cookiesFetch : Except String (List (String × String))
  securityFetch : Except String SecurityInfo
  serverFetch : Except String ServerAddr
deriving DecidableEq, Repr

/-- The network-data record appended by `log_request`. -/
structure NetReqEvent where
  uuid : Nat
  url : String
  method : String
  headers : Captured (List (String × String))
  cookies : Captured (List (String × String))
  resourceType : String
  redirectedFrom : Option String
  redirectedTo : Option String
  timing : List (String × Int)
deriving DecidableEq, Repr

/-- The network-data record appended by `log_response`. -/
structure NetRespEvent where
  uuid : Option Nat
  url : String
  status : Nat
  responseSize : Nat
  cookies : Captured (List (String × String))
  security : Captured SecurityInfo
  server : Captured ServerAddr
  resourceType : String
  redirectedTo : Option String
  redirectedFrom : Option String
  timing : List (String × Int)
  requestHeaders : Captured (List (String × String))
  responseHeaders : Captured (List (String × String))
  responseBody : Captured String
deriving DecidableEq, Repr

/-- One element of the `network_data` sequence. -/
inductive NetworkEvent where
  | request (e : NetReqEvent)
  | response (e : NetRespEvent)
deriving DecidableEq, Repr

/-- One redirect record of the `redirects` sequence. -/
structure RedirectStep where
  step : Nat
  fromUrl : String
  toUrl : String
  statusCode : Nat
  server : Captured ServerAddr
  resourceType : String
deriving DecidableEq, Repr

/-- The mutable per-session collector state shared by the listeners:
`network_data`, `logs`, `redirects`, `request_uuid_map`, and the source of
fresh correlation ids (modelling `uuid.uuid4()` by a counter). -/
structure SessionState where
  networkData : List NetworkEvent
  logs : List LogEntry
  redirects : List RedirectStep
  uuidMap : List (Nat × Nat)
  nextUuid : Nat
deriving DecidableEq, Repr

/-- The empty collector state at session start. -/
def initState : SessionState :=
  { networkData := [], logs := [], redirects := [], uuidMap := [], nextUuid := 0 }

/-- The correlation id recorded for a response: `request_uuid_map.get(request)`. -/
def lookupUuid (m : List (Nat × Nat)) (rid : Nat) : Option Nat :=
  (m.find? (fun p => p.1 == rid)).map (fun p => p.2)

/-- Branch selector of the body capture: `none` when reading the content
type itself raises (headers already degraded to the sentinel string),
`some true` for the text branch, `some false` for the binary branch. -/
def bodyTextMode (respHeaders : Captured (List (String × String))) : Option Bool :=
  match respHeaders with
  | .unavailable _ => none
  | .ok hs =>
    let ct := headerGet hs "content-type" ""
    some (strContains ct "text" || strContains ct "json")

/-- Stored `response_body`: raw text in the text branch, base64 in the
binary branch, the body sentinel when the chosen fetch raises. -/
def bodyValue (respHeaders : Captured (List (String × String)))
    (textFetch : Except String String) (bodyFetch : Except String (List Nat)) : Captured String :=
  match bodyTextMode respHeaders with
  | none => .unavailable bodyUnavailableSentinel
  | some true =>
    match textFetch with
    | .ok t => .ok t
    | .error _ => .unavailable bodyUnavailableSentinel
  | some false =>
    match bodyFetch with
    | .ok bs => .ok (base64Encode bs)
    | .error _ => .unavailable bodyUnavailableSentinel

/-- Stored `response_size`: length of the text or of the raw bytes; stays
`0` when the body capture fails. -/
def bodySize (respHeaders : Captured (List (String × String)))
    (textFetch : Except String String) (bodyFetch : Except String (List Nat)) : Nat :=
  match bodyTextMode respHeaders with
  | none => 0
  | some true =>
    match textFetch with
    | .ok t => t.length
    | .error _ => 0
  | some false =>
    match bodyFetch with
    | .ok bs => bs.length
    | .error _ => 0

/-- Logs after the body capture: the body warning is appended exactly when
the capture fails (including the degraded-headers AttributeError path). -/
def bodyLog (logs : List LogEntry) (respHeaders : Captured (List (String × String)))
    (textFetch : Except String String) (bodyFetch : Except String (List Nat)) : List LogEntry :=
  match bodyTextMode respHeaders with
  | none => logs ++ [.warning ("Failed to fetch response body: " ++ strGetAttributeError)]
  | some true =>
    match textFetch with
    | .ok _ => logs
    | .error m => logs ++ [.warning ("Failed to fetch response body: " ++ m)]
  | some false =>
    match bodyFetch with
    | .ok _ => logs
    | .error m => logs ++ [.warning ("Failed to fetch response body: " ++ m)]

/-- The failure witness of the body capture, if any: the `str(e)` whose
warning `log_response` appends. -/
def bodyFailure (r : ResponseEvent) : Option String :=
  match bodyTextMode (capturedValue unavailableSentinel r.responseHeadersFetch) with
  | none => some strGetAttributeError
  | some true =>
    match r.textFetch with
    | .ok _ => none
    | .error m => some m
  | some false =>
    match r.bodyFetch with
    | .ok _ => none
    | .error m => some m

/-- The network-data record `log_response` appends for a response event. -/
def responseNetEvent (st : SessionState) (r : ResponseEvent) : NetRespEvent :=
  { uuid := lookupUuid st.uuidMap r.rid
    url := r.url
    status := r.status
    responseSize := bodySize (capturedValue unavailableSentinel r.responseHeadersFetch) r.textFetch r.bodyFetch
    cookies := capturedValue unavailableSentinel r.cookiesFetch
    security := capturedValue unavailableSentinel r.securityFetch
    server := capturedValue unavailableSentinel r.serverFetch
    resourceType := r.resourceType
    redirectedTo := r.redirectedTo
    redirectedFrom := r.redirectedFrom
    timing := r.timing
    requestHeaders := capturedValue unavailableSentinel r.requestHeadersFetch
    responseHeaders := capturedValue unavailableSentinel r.responseHeadersFetch
    responseBody := bodyValue (capturedValue unavailableSentinel r.responseHeadersFetch) r.textFetch r.bodyFetch }

/-- The logs accumulated by `log_response`, in source order: request
headers, response headers, body, cookies, security details, server
address. -/
def responseLogs (logs : List LogEntry) (r : ResponseEvent) : List LogEntry :=
  let l1 := captureLog logs "request headers" r.requestHeadersFetch
  let l2 := captureLog l1 "response headers" r.responseHeadersFetch
  let l3 := bodyLog l2 (capturedValue unavailableSentinel r.responseHeadersFetch) r.textFetch r.bodyFetch
  let l4 := captureLog l3 "cookies" r.cookiesFetch
  let l5 := captureLog l4 "security details" r.securityFetch
  captureLog l5 "server address" r.serverFetch

/-- Embeds `log_response` (`app.py` lines 207-311): capture each fallible
field, append one response network record, and append a redirect step when
the originating request declares `redirected_from`. -/
def logResponse (st : SessionState) (r : ResponseEvent) : SessionState :=
  let ev := responseNetEvent st r
  let newLogs := responseLogs st.logs r
  let redirects :=
    match r.redirectedFrom with
    | some u =>
      st.redirects ++ [{ step := st.redirects.length + 1
                         fromUrl := u
                         toUrl := r.requestUrl
                         statusCode := r.status
                         server := capturedValue unavailableSentinel r.serverFetch
                         resourceType := r.resourceType }]
    | none => st.redirects
  { st with networkData := st.networkData ++ [NetworkEvent.response ev]
            logs := newLogs
            redirects := redirects }

/-- The network-data record `log_request` appends for a request event. -/
def requestNetEvent (st : SessionState) (q : RequestEvent) : NetReqEvent :=
  { uuid := st.nextUuid
    url := q.url
    method := q.method
    headers := capturedValue unavailableSentinel q.headersFetch
    cookies := capturedValue unavailableSentinel q.cookiesFetch
    resourceType := q.resourceType
    redirectedFrom := q.redirectedFrom
    redirectedTo := q.redirectedTo
    timing := q.timing }

/-- Embeds `log_request` (`app.py` lines 159-204): assign a fresh
correlation id, capture headers and cookies, append one request record. -/
def logRequest (st : SessionState) (q : RequestEvent) : SessionState :=
  let l1 := captureLog st.logs "request headers" q.headersFetch
  let l2 := captureLog l1 "cookies" q.cookiesFetch
  { st with uuidMap := st.uuidMap ++ [(q.rid, st.nextUuid)]
            nextUuid := st.nextUuid + 1
            networkData := st.networkData ++ [NetworkEvent.request (requestNetEvent st q)]
            logs := l2 }

/-- One notification delivered by the browser engine during navigation. -/
inductive PageEvent where
  | request (q : RequestEvent)
  | response (r : ResponseEvent)
  | console (msg : String)
  | pageerror (msg : String)
deriving DecidableEq, Repr

/-- Dispatch of one engine notification to the registered listener. -/
def processEvent (st : SessionState) : PageEvent → SessionState
  | .request q => logRequest st q
  | .response r => logResponse st r
  | .console m => { st with logs := st.logs ++ [.consoleMessage m] }
  | .pageerror m => { st with logs := st.logs ++ [.javascriptError m] }

/-- The final immutable result of a browse session (`response_data`). -/
structure Snapshot where
  redirects : List RedirectStep
  pageTitle : String
  metaDescription : String
  networkData : List NetworkEvent
  logs : List LogEntry
  cookies : List (String × String)
  performanceTiming : List (String × Int)
  screenshot : String
  thumbnail : String
  downloadedFiles : List (String × String)
  video : String
deriving DecidableEq, Repr

/-- External inputs of one browse session: the event stream delivered
during navigation, whether `page.goto` timed out, the metadata read
(raising when the page was torn down), and the external capture results. -/
structure BrowseInputs where
  events : List PageEvent
  navTimedOut : Bool
  metadataFetch : Except Unit (String × String)
  performanceTiming : List (String × Int)
  finalCookies : List (String × String)
  screenshotB64 : String
  thumbnailB64 : String
  downloadedFiles : List (String × String)
  videoB64 : String
deriving DecidableEq, Repr

/-- Embeds the orchestration of `browse` (`app.py` lines 342-415) after
listener registration: process the event stream, log the navigation
timeout (`except PlaywrightTimeoutError`) as a console-message entry,
degrade the metadata on a page-teardown error, and assemble the snapshot. -/
def runSession (inp : BrowseInputs) : Snapshot :=
  let st1 := inp.events.foldl processEvent initState
  let st2 :=
    if inp.navTimedOut then
      { st1 with logs := st1.logs ++ [.consoleMessage "Navigation timed out"] }
    else st1
  let meta :=
    match inp.metadataFetch with
    | .ok tm => tm
    | .error _ => ("Title unavailable due to navigation", "Meta description unavailable due to navigation")
  { redirects := st2.redirects
    pageTitle := meta.1
    metaDescription := meta.2
    networkData := st2.networkData
    logs := st2.logs
    cookies := inp.finalCookies
    performanceTiming := inp.performanceTiming
    screenshot := inp.screenshotB64
    thumbnail := inp.thumbnailB64
    downloadedFiles := inp.downloadedFiles
    video := inp.videoB64 }

/-! ## Flask in-memory cache (`main.py`, `cache_response`) -/

/-- One entry of the Flask module-level `cache` dict. -/
structure FCacheEntry (α : Type) where
  response : α
  timestamp : Nat
deriving DecidableEq, Repr

/-- The Flask cache: a dict from cache key to entry, modelled as an
insertion-ordered association list (Python dicts preserve insertion
order, which Python `min` over keys iterates in). -/
abbrev FlaskCache (α : Type) := List (String × FCacheEntry α)

/-- Embeds `main.py` line 20: maximum number of cached items. -/
def CACHE_MAX_SIZE : Nat := 100

/-- Embeds `main.py` line 21: cache expiration in seconds. -/
def CACHE_EXPIRATION : Nat := 300

/-- Remove the entry of a key (`del cache[k]`); dict semantics guarantee
at most one occurrence, the model removes the first. -/
def eraseKey (c : FlaskCache α) (k : String) : FlaskCache α :=
  match c with
  | [] => []
  | (k', e) :: t => if k' = k then t else (k', e) :: eraseKey t k

/-- Write a key (`cache[k] = entry`): overwrite in place, else append. -/
def setKey (c : FlaskCache α) (k : String) (e : FCacheEntry α) : FlaskCache α :=
  match c with
  | [] => [(k, e)]
  | (k', e') :: t => if k' = k then (k, e) :: t else (k', e') :: setKey t k e

/-- Embeds `min(cache.keys(), key=lambda k: cache[k]["timestamp"])`:
the first entry with the smallest timestamp, `none` on an empty dict
(where Python `min` would raise). -/
def oldestEntry (c : FlaskCache α) : Option (String × FCacheEntry α) :=
  match c with
  | [] => none
  | e :: t => some (t.foldl (fun best x => if x.2.timestamp < best.2.timestamp then x else best) e)

/-- Embeds the read half of `cache_response` (`main.py` lines 90-96):
an unexpired entry is returned; an entry whose age reaches
`CACHE_EXPIRATION` is deleted and treated as missing. -/
def cacheLookup (ttl : Nat) (c : FlaskCache α) (k : String) (now : Nat) : Option α × FlaskCache α :=
  match assocFind c k with
  | some e => if now - e.timestamp < ttl then (some e.response, c) else (none, eraseKey c k)
  | none => (none, c)

/-- Embeds the write half of `cache_response` (`main.py` lines 100-105):
when the dict is at capacity, delete the entry with the smallest
timestamp, then store the new entry stamped `now`. -/
def cacheStore (maxSize : Nat) (c : FlaskCache α) (k : String) (v : α) (now : Nat) : FlaskCache α :=
  let c' :=
    if maxSize ≤ c.length then
      match oldestEntry c with
      | some p => eraseKey c p.1
      | none => c
    else c
  setKey c' k ⟨v, now⟩

/-- Embeds the whole `cache_response` wrapper around a computation:
lookup at time `now`; on a miss, compute and store. Returns the response
and the updated cache. -/
def cache_response (ttl maxSize : Nat) (c : FlaskCache α) (k : String) (now : Nat)
    (compute : α) : α × FlaskCache α :=
  match cacheLookup ttl c k now with
  | (some v, c1) => (v, c1)
  | (none, c1) => (compute, cacheStore maxSize c1 k compute now)

/-! ## Authentication (`app.py` `optional_auth`, `main.py` `check_api_key`) -/

/-- Outcome of the gate in front of a handler. -/
inductive AuthOutcome where
  | allowed
  | rejected (status : Nat) (detail : String)
deriving DecidableEq, Repr

/-- Embeds `optional_auth` (`app.py` lines 59-77). `creds` is the bearer
token parsed by `HTTPBearer(auto_error=False)`, `none` when the
Authorization header is missing or malformed. -/
def optional_auth (apiKey : String) (creds : Option String) : AuthOutcome :=
  if apiKey = "none" then .allowed
  else
    match creds with
    | some token =>
      if token = apiKey then .allowed
      else .rejected 403 "Invalid API key"
    | none => .rejected 401 "Authorization header missing or invalid"

/-- The FastAPI routes of `app.py`. -/
inductive FastapiRoute where
  | browse
  | screenshot
  | minimize
  | extractText
  | reader
  | markdown
  | video
deriving DecidableEq, Repr

/-- Which route handlers declare the `Depends(optional_auth)` parameter in
their signatures (`app.py`): `/reader`, `/markdown` and `/video` do not. -/
def routeHasAuthDependency : FastapiRoute → Bool
  | .browse => true
  | .screenshot => true
  | .minimize => true
  | .extractText => true
  | .reader => false
  | .markdown => false
  | .video => false

/-- The auth gate FastAPI evaluates before running a handler: the
`optional_auth` dependency where declared, otherwise the handler runs
unconditionally. -/
def fastapiAuthGate (route : FastapiRoute) (apiKey : String) (creds : Option String) : AuthOutcome :=
  if routeHasAuthDependency route then optional_auth apiKey creds else .allowed

/-- Python `s.startswith(pre)`. -/
def pyStartsWith (s pre : String) : Bool :=
  listStartsWith pre.data s.data

/-- Helper of `pySplitSpace`: split a character list on a separator,
keeping empty fields, as Python `str.split(sep)` does. -/
def splitChar (sep : Char) : List Char → List (List Char)
  | [] => [[]]
  | c :: rest =>
    let r := splitChar sep rest
    if c == sep then [] :: r
    else
      match r with
      | [] => [[c]]
      | h :: t => (c :: h) :: t

/-- Python `s.split(" ")`. -/
def pySplitSpace (s : String) : List String :=
  (splitChar ' ' s.data).map String.mk

/-- Embeds `check_api_key` (`main.py` lines 25-43), the Flask
`before_request` middleware applied to every endpoint. `apiKey` is
`os.environ.get("API_KEY")` (`none` when unset); `authHeader` the raw
Authorization header. -/
def check_api_key (apiKey : Option String) (authHeader : Option String) : AuthOutcome :=
  match apiKey with
  | none => .allowed
  | some k =>
    if k = "" ∨ k = "none" then .allowed
    else
      match authHeader with
      | none => .rejected 401 "Authorization header missing"
      | some h =>
        if ¬ pyStartsWith h "Bearer " then .rejected 401 "Invalid authorization header format"
        else
          let token := (pySplitSpace h).getD 1 ""
          if token ≠ k then .rejected 403 "Invalid API key (Bearer token)"
          else .allowed

/-! ## Engine resolution (`app.py` `browse`, `main.py` `process_request`) -/

/-- The JSON payload of `/screenshot`. -/
structure ScreenshotImages where
  url : String
  screenshot : String
  thumbnail : String
deriving DecidableEq, Repr

/-- A cache together with a counter of read operations performed on it
(`in cache` membership tests and `cache[key]` reads both count). -/
structure CacheTrace (α : Type) where
  cache : List (String × α)
  reads : Nat
deriving DecidableEq, Repr

/-- Membership test `key in cache`, counted as one read. -/
def ctContains (t : CacheTrace α) (k : String) : Bool × CacheTrace α :=
  ((assocFind t.cache k).isSome, { t with reads := t.reads + 1 })

/-- Read `cache[key]`, counted as one read; `d` stands for the unreachable
missing-key branch behind a membership guard. -/
def ctGet (t : CacheTrace α) (k : String) (d : α) : α × CacheTrace α :=
  ((assocFind t.cache k).getD d, { t with reads := t.reads + 1 })

/-- Plain association-list write used by `ctSet`. -/
def setKeyPlain (c : List (String × α)) (k : String) (v : α) : List (String × α) :=
  match c with
  | [] => [(k, v)]
  | (k', v') :: t => if k' = k then (k, v) :: t else (k', v') :: setKeyPlain t k v

/-- Write `cache.set(key, v, expire=...)`. -/
def ctSet (t : CacheTrace α) (k : String) (v : α) : CacheTrace α :=
  { t with cache := setKeyPlain t.cache k v }

/-- Embeds `screenshotter` (`app.py` lines 418-470): the guard
`if not live and cache_key in cache` short-circuits, so with `live=True`
the cache is neither consulted nor written and the fresh capture `fresh`
is returned; otherwise a hit is served from the cache and a miss stores
the fresh capture. -/
def screenshotter (t : CacheTrace ScreenshotImages) (url : String)
    (fullPage live : Bool) (fresh : ScreenshotImages) :
    ScreenshotImages × CacheTrace ScreenshotImages :=
  let key := generate_cache_key (url ++ "_" ++ pyBool fullPage)
  if live then
    (fresh, t)
  else
    let r1 := ctContains t key
    if r1.1 then
      ctGet r1.2 key fresh
    else
      (fresh, ctSet r1.2 key fresh)

/-! ## Derived definitions used by the claim statements -/

/-- Whether an event appends to the `network_data` sequence. -/
def isNetEvent : PageEvent → Bool
  | .request _ => true
  | .response _ => true
  | _ => false

/-- Whether an event is a response whose originating request declares a
`redirected_from` URL. -/
def isRedirectResponse : PageEvent → Bool
  | .response r => r.redirectedFrom.isSome
  | _ => false

/-- The redirect record emitted for such a response, with step number `n`. -/
def redirectOfResponse (n : Nat) (u : String) (r : ResponseEvent) : RedirectStep :=
  { step := n
    fromUrl := u
    toUrl := r.requestUrl
    statusCode := r.status
    server := capturedValue unavailableSentinel r.serverFetch
    resourceType := r.resourceType }

/-- The redirect chain derived from an event stream, numbering from `n`. -/
def buildRedirects (n : Nat) : List PageEvent → List RedirectStep
  | [] => []
  | .response r :: rest =>
    match r.redirectedFrom with
    | some u => redirectOfResponse n u r :: buildRedirects (n + 1) rest
    | none => buildRedirects n rest
  | .request _ :: rest => buildRedirects n rest
  | .console _ :: rest => buildRedirects n rest
  | .pageerror _ :: rest => buildRedirects n rest

/-- Whether a log entry carries the warning or error tag. -/
def isWarningOrError : LogEntry → Bool
  | .warning _ => true
  | .error _ => true
  | _ => false

/-- A concrete session input with no events and no timeout. -/
def sampleInputs : BrowseInputs :=
  { events := []
    navTimedOut := false
    metadataFetch := .ok ("T", "M")
    performanceTiming := []
    finalCookies := []
    screenshotB64 := "s"
    thumbnailB64 := "t"
    downloadedFiles := []
    videoB64 := "v" }

/-- A concrete session input whose navigation timed out. -/
def timeoutInputs : BrowseInputs :=
  { sampleInputs with navTimedOut := true }

/-! ## Helper lemmas -/

theorem assocFind_cons (k' : String) (v : α) (t : List (String × α)) (k : String) :
    assocFind ((k', v) :: t) k = if k' = k then some v else assocFind t k := by
  by_cases h : k' = k
  · simp [assocFind, List.find?, h]
  · have hb : (k' == k) = false := by simp [h]
    simp [assocFind, List.find?, hb, h]

theorem captureWarn_def (logs : List LogEntry) (what : String) (f : Except String α) :
    captureLog logs what f = logs ++ captureLog [] what f := by
  cases f <;> simp [captureLog]

theorem mem_captureLog_of_mem (x : LogEntry) (logs : List LogEntry) (what : String)
    (f : Except String α) (h : x ∈ logs) : x ∈ captureLog logs what f := by
  cases f with
  | ok a => simpa [captureLog] using h
  | error m => simp [captureLog]; exact Or.inl h

theorem warning_mem_captureLog (logs : List LogEntry) (what m : String) (f : Except String α)
    (h : f = .error m) :
    LogEntry.warning ("Failed to fetch " ++ what ++ ": " ++ m) ∈ captureLog logs what f := by
  subst h; simp [captureLog]

theorem mem_bodyLog_of_mem (x : LogEntry) (logs : List LogEntry)
    (rh : Captured (List (String × String))) (tf : Except String String)
    (bf : Except String (List Nat)) (h : x ∈ logs) : x ∈ bodyLog logs rh tf bf := by
  unfold bodyLog
  cases bodyTextMode rh with
  | none => simp; exact Or.inl h
  | some b =>
    cases b with
    | true =>
      cases tf with
      | ok a => simpa using h
      | error m => simp; exact Or.inl h
    | false =>
      cases bf with
      | ok a => simpa using h
      | error m => simp; exact Or.inl h

/-! ## C2: cache fingerprint -/

/-- Claim C2 (amended): the cache fingerprint is deterministic — identical
field values always yield the same key — and two request tuples yield the
same key whenever their dash-joined serializations coincide, so the
claimed injectivity on distinct tuples does not hold. -/
theorem fingerprint_deterministic_join_determined :
    (∀ (u m : String) (b : Option String) (e : String),
      browseFingerprint u m b e = browseFingerprint u m b e) ∧
    (∀ (u₁ m₁ : String) (b₁ : Option String) (e₁ : String)
       (u₂ m₂ : String) (b₂ : Option String) (e₂ : String),
      browseKeyString u₁ m₁ b₁ e₁ = browseKeyString u₂ m₂ b₂ e₂ →
      browseFingerprint u₁ m₁ b₁ e₁ = browseFingerprint u₂ m₂ b₂ e₂) := by
  refine ⟨fun _ _ _ _ => rfl, fun u₁ m₁ b₁ e₁ u₂ m₂ b₂ e₂ h => ?_⟩
  unfold browseFingerprint
  exact congrArg generate_cache_key h

/-- Witness for C2: two concrete distinct tuples with equal serialization
share a fingerprint, via the amended theorem. -/
theorem fingerprint_deterministic_join_determined_witness :
    browseFingerprint "a" "b-c" (some "d") "e" = browseFingerprint "a-b" "c" (some "d") "e" :=
  fingerprint_deterministic_join_determined.2 "a" "b-c" (some "d") "e" "a-b" "c" (some "d") "e"
    (by decide)

/-- Counterexample to C2 as stated: the tuples `("a", "b-c", "d", "e")` and
`("a-b", "c", "d", "e")` differ in their url and method fields yet produce
the same cache key, because both serialize to `a-b-c-d-e`. -/
theorem fingerprint_collision_counterexample :
    browseFingerprint "a" "b-c" (some "d") "e" = browseFingerprint "a-b" "c" (some "d") "e" ∧
    ¬(("a" : String) = "a-b" ∧ ("b-c" : String) = "c") := by
  exact ⟨congrArg generate_cache_key (by decide), by decide⟩

/-! ## C8: live screenshots bypass the cache -/

/-- Claim C8: with `live=true` the screenshot handler never reads the
cache — the result is the fresh capture, the cache and its read counter
are untouched — and two consecutive `live=true` calls both perform fresh
captures with zero cache reads. -/
theorem screenshot_live_bypasses_cache :
    ∀ (t : CacheTrace ScreenshotImages) (url : String) (fp : Bool)
      (f1 f2 : ScreenshotImages),
      screenshotter t url fp true f1 = (f1, t) ∧
      (screenshotter t url fp true f1).2.reads = t.reads ∧
      screenshotter (screenshotter t url fp true f1).2 url fp true f2 = (f2, t) := by
  intro t url fp f1 f2
  refine ⟨?_, ?_, ?_⟩ <;> simp [screenshotter]

/-! ## C5: unsupported engine -/

/-- Claim C9 (amended): with the secret set to the sentinel `none` every
request is accepted. Otherwise the endpoints that declare the auth
dependency (FastAPI `/browse`, `/screenshot`, `/minimize`,
`/extract_text`) reject with 401 when credentials are absent and 403 when
the token differs, accepting exactly the matching token; FastAPI
`/reader`, `/markdown` and `/video` never consult the secret. The Flask
middleware guards every endpoint: with a non-trivial secret a request is
accepted exactly when its Authorization header starts with `Bearer ` and
its second space-separated field equals the secret. -/
theorem auth_enforcement_characterization :
    (∀ (r : FastapiRoute) (creds : Option String),
      fastapiAuthGate r "none" creds = .allowed) ∧
    (∀ (r : FastapiRoute) (key : String) (creds : Option String),
      routeHasAuthDependency r = false → fastapiAuthGate r key creds = .allowed) ∧
    (∀ (r : FastapiRoute) (key : String), key ≠ "none" → routeHasAuthDependency r = true →
      fastapiAuthGate r key (some key) = .allowed ∧
      fastapiAuthGate r key none = .rejected 401 "Authorization header missing or invalid" ∧
      (∀ t, t ≠ key → fastapiAuthGate r key (some t) = .rejected 403 "Invalid API key")) ∧
    (∀ h, check_api_key none h = .allowed ∧
      check_api_key (some "") h = .allowed ∧
      check_api_key (some "none") h = .allowed) ∧
    (∀ (k : String) (h : Option String), k ≠ "" → k ≠ "none" →
      (check_api_key (some k) h = .allowed ↔
        ∃ hdr, h = some hdr ∧ pyStartsWith hdr "Bearer " = true ∧
          (pySplitSpace hdr).getD 1 "" = k)) := by
  refine ⟨?_, ?_, ?_, ?_, ?_⟩
  · intro r creds
    unfold fastapiAuthGate optional_auth
    by_cases hd : routeHasAuthDependency r <;> simp [hd]
  · intro r key creds hd
    simp [fastapiAuthGate, hd]
  · intro r key hk hd
    refine ⟨?_, ?_, ?_⟩
    · simp [fastapiAuthGate, hd, optional_auth, hk]
    · simp [fastapiAuthGate, hd, optional_auth, hk]
    · intro t ht
      simp [fastapiAuthGate, hd, optional_auth, hk, ht]
  · intro h
    refine ⟨rfl, ?_, ?_⟩ <;> simp [check_api_key]
  · intro k h hk1 hk2
    cases h with
    | none =>
      simp [check_api_key, hk1, hk2]
    | some hdr =>
      simp only [check_api_key]
      rw [if_neg (by simp [hk1, hk2])]
      by_cases hb : pyStartsWith hdr "Bearer " = true
      · rw [if_neg (by simp [hb])]
        by_cases ht : (pySplitSpace hdr).getD 1 "" = k
        · rw [if_neg (fun hcon => hcon ht)]
          exact ⟨fun _ => ⟨hdr, rfl, hb, ht⟩, fun _ => rfl⟩
        · rw [if_pos ht]
          constructor
          · intro hcon; simp at hcon
          · rintro ⟨hdr', heq, hb', ht'⟩
            injection heq with heq2
            subst heq2
            exact absurd ht' ht
      · rw [if_pos (by simpa using hb)]
        simp [hb]

/-- Witness for C9: concrete gate outcomes with the secret `s3cr3t`. -/
theorem auth_enforcement_witness :
    fastapiAuthGate .browse "s3cr3t" (some "s3cr3t") = .allowed ∧
    fastapiAuthGate .browse "s3cr3t" none
      = .rejected 401 "Authorization header missing or invalid" ∧
    fastapiAuthGate .browse "s3cr3t" (some "wrong") = .rejected 403 "Invalid API key" ∧
    check_api_key (some "s3cr3t") (some "Bearer s3cr3t") = .allowed := by
  have h3 := auth_enforcement_characterization.2.2.1 .browse "s3cr3t" (by decide) (by decide)
  have h5 := (auth_enforcement_characterization.2.2.2.2 "s3cr3t" (some "Bearer s3cr3t")
    (by decide) (by decide)).mpr ⟨"Bearer s3cr3t", rfl, by decide, by decide⟩

  exact ⟨h3.1, h3.2.1, h3.2.2 "wrong" (by decide), h5⟩

/-- Counterexample to C9 as stated: with the secret `s3cr3t` (not the
sentinel), a request to the FastAPI `/reader` endpoint with no
Authorization header is accepted, not rejected with 401/403. -/
theorem reader_unauthenticated_counterexample :
    fastapiAuthGate .reader "s3cr3t" none = .allowed ∧ ("s3cr3t" : String) ≠ "none" := by
  decide

/-! ## C7 and C10: Flask cache round-trip, capacity and eviction -/

theorem assocFind_setKey (c : FlaskCache α) (k : String) (e : FCacheEntry α) :
    assocFind (setKey c k e) k = some e := by
  induction c with
  | nil => simp [setKey, assocFind, List.find?]
  | cons p t ih =>
    obtain ⟨k', e'⟩ := p
    by_cases h : k' = k
    · subst h
      simp [setKey, assocFind, List.find?]
    · rw [setKey, if_neg h, assocFind_cons, if_neg h]
      exact ih

theorem setKey_length_le (c : FlaskCache α) (k : String) (e : FCacheEntry α) :
    (setKey c k e).length ≤ c.length + 1 := by
  induction c with
  | nil => simp [setKey]
  | cons p t ih =>
    obtain ⟨k', e'⟩ := p
    by_cases h : k' = k
    · simp [setKey, h]
    · simp only [setKey, if_neg h, List.length_cons]
      omega

theorem eraseKey_length_of_mem (c : FlaskCache α) (k : String) (e : FCacheEntry α)
    (h : (k, e) ∈ c) : (eraseKey c k).length + 1 = c.length := by
  induction c with
  | nil => cases h
  | cons p t ih =>
    obtain ⟨k', e'⟩ := p
    by_cases hk : k' = k
    · simp [eraseKey, hk]
    · have hmem : (k, e) ∈ t := by
        rcases List.mem_cons.mp h with heq | hmem
        · cases heq; exact absurd rfl hk
        · exact hmem
      have hrec := ih hmem
      simp only [eraseKey, if_neg hk, List.length_cons]
      omega

/-- Python `min` with a key function over a nonempty sequence: the fold
keeps the first element attaining the minimal timestamp. -/
theorem foldl_minByTs_spec (t : List (String × FCacheEntry α)) :
    ∀ e : String × FCacheEntry α,
      (t.foldl (fun best x => if x.2.timestamp < best.2.timestamp then x else best) e = e ∨
        t.foldl (fun best x => if x.2.timestamp < best.2.timestamp then x else best) e ∈ t) ∧
      (t.foldl (fun best x => if x.2.timestamp < best.2.timestamp then x else best) e).2.timestamp
        ≤ e.2.timestamp ∧
      ∀ q ∈ t,
        (t.foldl (fun best x => if x.2.timestamp < best.2.timestamp then x else best) e).2.timestamp
          ≤ q.2.timestamp := by
  induction t with
  | nil =>
    intro e
    exact ⟨Or.inl rfl, le_refl _, by simp⟩
  | cons x xs ih =>
    intro e
    have hstep :
        (if x.2.timestamp < e.2.timestamp then x else e).2.timestamp ≤ e.2.timestamp ∧
        (if x.2.timestamp < e.2.timestamp then x else e).2.timestamp ≤ x.2.timestamp := by
      by_cases hc : x.2.timestamp < e.2.timestamp <;> simp [hc] <;> omega
    have h := ih (if x.2.timestamp < e.2.timestamp then x else e)
    refine ⟨?_, ?_, ?_⟩
    · rw [List.foldl_cons]
      rcases h.1 with h1 | h1
      · rw [h1]
        by_cases hc : x.2.timestamp < e.2.timestamp
        · rw [if_pos hc]; right; exact List.mem_cons_self x xs
        · rw [if_neg hc]; left; rfl
      · right; exact List.mem_cons_of_mem x h1
    · rw [List.foldl_cons]
      exact le_trans h.2.1 hstep.1
    · intro q hq
      rw [List.foldl_cons]
      rcases List.mem_cons.mp hq with rfl | hq'
      · exact le_trans h.2.1 hstep.2
      · exact h.2.2 q hq'

theorem oldestEntry_isSome (c : FlaskCache α) (h : c ≠ []) :
    ∃ p, oldestEntry c = some p := by
  cases c with
  | nil => exact absurd rfl h
  | cons e t => exact ⟨_, rfl⟩

theorem oldestEntry_mem (c : FlaskCache α) (p : String × FCacheEntry α)
    (h : oldestEntry c = some p) : p ∈ c := by
  cases c with
  | nil => cases h
  | cons e t =>
    simp only [oldestEntry, Option.some.injEq] at h
    rcases (foldl_minByTs_spec t e).1 with h1 | h1
    · rw [h] at h1; rw [h1]; exact List.mem_cons_self e t
    · rw [h] at h1; exact List.mem_cons_of_mem e h1

theorem oldestEntry_min (c : FlaskCache α) (p : String × FCacheEntry α)
    (h : oldestEntry c = some p) : ∀ q ∈ c, p.2.timestamp ≤ q.2.timestamp := by
  cases c with
  | nil => cases h
  | cons e t =>
    simp only [oldestEntry, Option.some.injEq] at h
    intro q hq
    rcases List.mem_cons.mp hq with rfl | hq'
    · rw [← h]; exact (foldl_minByTs_spec t q).2.1
    · rw [← h]; exact (foldl_minByTs_spec t e).2.2 q hq'

/-- Claim C7 (amended): after `put` at time `now0`, a `get` at time `now`
returns the stored snapshot exactly while `now - now0 < ttl` (strict);
at and beyond `now0 + ttl` the entry behaves as absent — so the boundary
instant `now = insertedAt + ttl` already misses. -/
theorem cache_roundtrip_strict_expiry (ttl maxSize : Nat) (c : FlaskCache Nat)
    (k : String) (s now0 now : Nat) :
    ((cacheLookup ttl (cacheStore maxSize c k s now0) k now).1
      = if now - now0 < ttl then some s else none) ∧
    (now0 ≤ now →
      (((cacheLookup ttl (cacheStore maxSize c k s now0) k now).1 = some s)
        ↔ now < now0 + ttl)) := by
  have hf : assocFind (cacheStore maxSize c k s now0) k = some ⟨s, now0⟩ := by
    unfold cacheStore
    exact assocFind_setKey _ k _
  constructor
  · by_cases h : now - now0 < ttl <;> simp [cacheLookup, hf, h]
  · intro hle
    by_cases h : now - now0 < ttl
    · simp only [cacheLookup, hf, if_pos h]
      constructor
      · intro _; omega
      · intro _; trivial
    · simp only [cacheLookup, hf, if_neg h]
      constructor
      · intro hcontra; simp at hcontra
      · intro hlt; omega

/-- Witness for C7: storing at t=10 and reading at t=20 with ttl 300
returns the stored value. -/
theorem cache_roundtrip_witness :
    (10 : Nat) ≤ 20 ∧
    (cacheLookup 300 (cacheStore 100 ([] : FlaskCache Nat) "k" 7 10) "k" 20).1 = some 7 := by
  have h := cache_roundtrip_strict_expiry 300 100 ([] : FlaskCache Nat) "k" 7 10 20
  exact ⟨by omega, (h.2 (by omega)).mpr (by omega)⟩

/-- Counterexample to C7 as stated: at the boundary instant
`now = insertedAt + ttl` (insert at 0, ttl 300, read at 300) the claim
demands the snapshot back, but the code's strict age check already treats
the entry as absent. -/
theorem cache_boundary_expiry_counterexample :
    (cacheLookup 300 (cacheStore 100 ([] : FlaskCache Nat) "k" 7 0) "k" 300).1 = none ∧
    (300 : Nat) ≤ 0 + 300 := by
  constructor
  · rfl
  · decide

/-- Claim C10: starting from a cache within capacity, an insert leaves at
most `CACHE_MAX_SIZE` (100) entries, and an insert at capacity first
evicts the first entry attaining the smallest stored timestamp. -/
theorem flask_cache_bounded_with_oldest_eviction (c : FlaskCache Nat) (k : String)
    (v now : Nat) (hle : c.length ≤ CACHE_MAX_SIZE) :
    (cacheStore CACHE_MAX_SIZE c k v now).length ≤ CACHE_MAX_SIZE ∧
    (c.length = CACHE_MAX_SIZE →
      ∃ p, oldestEntry c = some p ∧
        (∀ q ∈ c, p.2.timestamp ≤ q.2.timestamp) ∧
        cacheStore CACHE_MAX_SIZE c k v now = setKey (eraseKey c p.1) k ⟨v, now⟩) := by
  constructor
  · by_cases hcap : CACHE_MAX_SIZE ≤ c.length
    · have hlen : c.length = CACHE_MAX_SIZE := le_antisymm hle hcap
      have hne : c ≠ [] := by
        intro h0; rw [h0] at hlen; simp [CACHE_MAX_SIZE] at hlen
      obtain ⟨p, hp⟩ := oldestEntry_isSome c hne
      have hmem : (p.1, p.2) ∈ c := by
        rw [Prod.mk.eta]; exact oldestEntry_mem c p hp
      have herase := eraseKey_length_of_mem c p.1 p.2 hmem
      have hset := setKey_length_le (eraseKey c p.1) k ⟨v, now⟩
      simp only [cacheStore, if_pos hcap, hp]
      omega
    · have hset := setKey_length_le c k ⟨v, now⟩
      simp only [cacheStore, if_neg hcap]
      omega
  · intro hlen
    have hcap : CACHE_MAX_SIZE ≤ c.length := le_of_eq hlen.symm
    have hne : c ≠ [] := by
      intro h0; rw [h0] at hlen; simp [CACHE_MAX_SIZE] at hlen
    obtain ⟨p, hp⟩ := oldestEntry_isSome c hne
    refine ⟨p, hp, oldestEntry_min c p hp, ?_⟩
    simp only [cacheStore, if_pos hcap, hp]

/-- Witness for C10: a concrete 100-entry cache at capacity. -/
theorem flask_cache_eviction_witness :
    ((List.range 100).map (fun i => (Nat.repr i, (⟨i, i + 1⟩ : FCacheEntry Nat)))).length
      ≤ CACHE_MAX_SIZE ∧
    (cacheStore CACHE_MAX_SIZE
      ((List.range 100).map (fun i => (Nat.repr i, (⟨i, i + 1⟩ : FCacheEntry Nat))))
      "new" 5 999).length ≤ CACHE_MAX_SIZE := by
  have h := flask_cache_bounded_with_oldest_eviction
    ((List.range 100).map (fun i => (Nat.repr i, (⟨i, i + 1⟩ : FCacheEntry Nat))))
    "new" 5 999 (by simp [CACHE_MAX_SIZE])
  exact ⟨by simp [CACHE_MAX_SIZE], h.1⟩

/-! ## C3: redirect step numbering -/

theorem logRequest_redirects (st : SessionState) (q : RequestEvent) :
    (logRequest st q).redirects = st.redirects := rfl

theorem logResponse_redirects (st : SessionState) (r : ResponseEvent) :
    (logResponse st r).redirects =
      match r.redirectedFrom with
      | some u => st.redirects ++ [redirectOfResponse (st.redirects.length + 1) u r]
      | none => st.redirects := by
  cases hr : r.redirectedFrom <;>
    simp [logResponse, hr, redirectOfResponse]

theorem foldl_redirects (evs : List PageEvent) :
    ∀ st : SessionState,
      (evs.foldl processEvent st).redirects
        = st.redirects ++ buildRedirects (st.redirects.length + 1) evs := by
  induction evs with
  | nil => intro st; simp [buildRedirects]
  | cons ev rest ih =>
    intro st
    rw [List.foldl_cons]
    cases ev with
    | request q =>
      rw [ih, processEvent, logRequest_redirects, buildRedirects]
    | response r =>
      rw [ih, processEvent]
      cases hr : r.redirectedFrom with
      | none =>
        rw [logResponse_redirects]
        simp [hr, buildRedirects]
      | some u =>
        rw [logResponse_redirects]
        simp only [hr, buildRedirects, List.length_append, List.length_cons,
          List.length_nil, List.append_assoc, List.cons_append, List.nil_append]
    | console m =>
      rw [ih]; rfl
    | pageerror m =>
      rw [ih]; rfl

theorem buildRedirects_steps (evs : List PageEvent) :
    ∀ n : Nat,
      (buildRedirects n evs).map RedirectStep.step
        = List.range' n (buildRedirects n evs).length := by
  induction evs with
  | nil => intro n; simp [buildRedirects]
  | cons ev rest ih =>
    intro n
    cases ev with
    | request q => simpa [buildRedirects] using ih n
    | response r =>
      cases hr : r.redirectedFrom with
      | none => simpa [buildRedirects, hr] using ih n
      | some u =>
        simp [buildRedirects, hr, redirectOfResponse, List.range'_succ]
        exact ih (n + 1)
    | console m => simpa [buildRedirects] using ih n
    | pageerror m => simpa [buildRedirects] using ih n

theorem buildRedirects_length (evs : List PageEvent) :
    ∀ n : Nat, (buildRedirects n evs).length = (evs.filter isRedirectResponse).length := by
  induction evs with
  | nil => intro n; simp [buildRedirects]
  | cons ev rest ih =>
    intro n
    cases ev with
    | request q => simpa [buildRedirects, isRedirectResponse, List.filter] using ih n
    | response r =>
      cases hr : r.redirectedFrom with
      | none => simpa [buildRedirects, isRedirectResponse, hr, List.filter] using ih n
      | some u =>
        simp [buildRedirects, isRedirectResponse, hr, List.filter]
        exact ih (n + 1)
    | console m => simpa [buildRedirects, isRedirectResponse, List.filter] using ih n
    | pageerror m => simpa [buildRedirects, isRedirectResponse, List.filter] using ih n

/-- Claim C3: over any event stream, the collector emits one RedirectStep
exactly per response whose originating request declares a redirectedFrom
URL, and the emitted step numbers form the sequence 1, 2, 3, ... in
emission order, however many non-redirect events interleave. -/
theorem redirect_steps_strictly_increasing (evs : List PageEvent) :
    (evs.foldl processEvent initState).redirects = buildRedirects 1 evs ∧
    ((evs.foldl processEvent initState).redirects.map RedirectStep.step
      = List.range' 1 (evs.filter isRedirectResponse).length) ∧
    (evs.foldl processEvent initState).redirects.length
      = (evs.filter isRedirectResponse).length := by
  have h := foldl_redirects evs initState
  have h0 : initState.redirects = [] := rfl
  rw [h0, List.nil_append, List.length_nil] at h
  refine ⟨h, ?_, ?_⟩
  · rw [h, buildRedirects_steps evs 1, buildRedirects_length evs 1]
  · rw [h, buildRedirects_length evs 1]

/-! ## C1: capture-failure isolation -/

theorem logResponse_networkData (st : SessionState) (r : ResponseEvent) :
    (logResponse st r).networkData
      = st.networkData ++ [NetworkEvent.response (responseNetEvent st r)] := rfl

theorem logResponse_logs (st : SessionState) (r : ResponseEvent) :
    (logResponse st r).logs = responseLogs st.logs r := rfl

theorem logRequest_networkData (st : SessionState) (q : RequestEvent) :
    (logRequest st q).networkData
      = st.networkData ++ [NetworkEvent.request (requestNetEvent st q)] := rfl

theorem logRequest_logs (st : SessionState) (q : RequestEvent) :
    (logRequest st q).logs
      = captureLog (captureLog st.logs "request headers" q.headersFetch) "cookies"
          q.cookiesFetch := rfl

theorem warn_requestHeaders_mem (logs : List LogEntry) (r : ResponseEvent) (m : String)
    (h : r.requestHeadersFetch = .error m) :
    LogEntry.warning ("Failed to fetch request headers: " ++ m) ∈ responseLogs logs r := by
  simp only [responseLogs]
  apply mem_captureLog_of_mem
  apply mem_captureLog_of_mem
  apply mem_captureLog_of_mem
  apply mem_bodyLog_of_mem
  apply mem_captureLog_of_mem
  exact warning_mem_captureLog logs "request headers" m r.requestHeadersFetch h

theorem warn_responseHeaders_mem (logs : List LogEntry) (r : ResponseEvent) (m : String)
    (h : r.responseHeadersFetch = .error m) :
    LogEntry.warning ("Failed to fetch response headers: " ++ m) ∈ responseLogs logs r := by
  simp only [responseLogs]
  apply mem_captureLog_of_mem
  apply mem_captureLog_of_mem
  apply mem_captureLog_of_mem
  apply mem_bodyLog_of_mem
  exact warning_mem_captureLog _ "response headers" m r.responseHeadersFetch h

theorem warn_cookies_mem (logs : List LogEntry) (r : ResponseEvent) (m : String)
    (h : r.cookiesFetch = .error m) :
    LogEntry.warning ("Failed to fetch cookies: " ++ m) ∈ responseLogs logs r := by
  simp only [responseLogs]
  apply mem_captureLog_of_mem
  apply mem_captureLog_of_mem
  exact warning_mem_captureLog _ "cookies" m r.cookiesFetch h

theorem warn_security_mem (logs : List LogEntry) (r : ResponseEvent) (m : String)
    (h : r.securityFetch = .error m) :
    LogEntry.warning ("Failed to fetch security details: " ++ m) ∈ responseLogs logs r := by
  simp only [responseLogs]
  apply mem_captureLog_of_mem
  exact warning_mem_captureLog _ "security details" m r.securityFetch h

theorem warn_server_mem (logs : List LogEntry) (r : ResponseEvent) (m : String)
    (h : r.serverFetch = .error m) :
    LogEntry.warning ("Failed to fetch server address: " ++ m) ∈ responseLogs logs r := by
  simp only [responseLogs]
  exact warning_mem_captureLog _ "server address" m r.serverFetch h

theorem warn_body_mem (logs : List LogEntry) (r : ResponseEvent) (m : String)
    (h : bodyFailure r = some m) :
    LogEntry.warning ("Failed to fetch response body: " ++ m) ∈ responseLogs logs r := by
  simp only [responseLogs]
  apply mem_captureLog_of_mem
  apply mem_captureLog_of_mem
  apply mem_captureLog_of_mem
  unfold bodyFailure at h
  unfold bodyLog
  cases hm : bodyTextMode (capturedValue unavailableSentinel r.responseHeadersFetch) with
  | none =>
    rw [hm] at h
    injection h with h2
    subst h2
    simp
  | some b =>
    rw [hm] at h
    cases b with
    | true =>
      cases htf : r.textFetch with
      | ok t => rw [htf] at h; simp at h
      | error me =>
        rw [htf] at h
        injection h with h2
        subst h2
        simp
    | false =>
      cases hbf : r.bodyFetch with
      | ok bs => rw [hbf] at h; simp at h
      | error me =>
        rw [hbf] at h
        injection h with h2
        subst h2
        simp

theorem bodyValue_of_failure (r : ResponseEvent) (m : String) (h : bodyFailure r = some m) :
    bodyValue (capturedValue unavailableSentinel r.responseHeadersFetch) r.textFetch r.bodyFetch
      = .unavailable bodyUnavailableSentinel := by
  unfold bodyFailure at h
  unfold bodyValue
  cases hm : bodyTextMode (capturedValue unavailableSentinel r.responseHeadersFetch) with
  | none => rfl
  | some b =>
    rw [hm] at h
    cases b with
    | true =>
      cases htf : r.textFetch with
      | ok t => rw [htf] at h; simp at h
      | error me => rfl
    | false =>
      cases hbf : r.bodyFetch with
      | ok bs => rw [hbf] at h; simp at h
      | error me => rfl

theorem processEvent_netlen (st : SessionState) (ev : PageEvent) :
    (processEvent st ev).networkData.length
      = st.networkData.length + (if isNetEvent ev then 1 else 0) := by
  cases ev <;> simp [processEvent, logRequest, logResponse, isNetEvent]

theorem foldl_netlen (evs : List PageEvent) :
    ∀ st : SessionState,
      (evs.foldl processEvent st).networkData.length
        = st.networkData.length + (evs.filter isNetEvent).length := by
  induction evs with
  | nil => intro st; simp
  | cons ev rest ih =>
    intro st
    rw [List.foldl_cons, ih (processEvent st ev), processEvent_netlen]
    by_cases hn : isNetEvent ev = true
    · simp [List.filter_cons, hn]
      omega
    · simp [List.filter_cons, hn]

theorem runSession_networkData (inp : BrowseInputs) :
    (runSession inp).networkData = (inp.events.foldl processEvent initState).networkData := by
  cases h : inp.navTimedOut <;> simp [runSession, h]

/-- Claim C1: every per-field capture failure inside the network-event
listeners degrades that single field to its explicit unavailable sentinel
and appends a warning log entry, the event record is still appended, and
for every input — including one where every fetch fails — the session
produces a Snapshot whose networkEvents sequence has one entry per
request/response notification. -/
theorem capture_failure_isolation :
    (∀ (st : SessionState) (r : ResponseEvent),
      (logResponse st r).networkData
        = st.networkData ++ [NetworkEvent.response (responseNetEvent st r)] ∧
      (∀ m, r.requestHeadersFetch = .error m →
        (responseNetEvent st r).requestHeaders = .unavailable unavailableSentinel ∧
        LogEntry.warning ("Failed to fetch request headers: " ++ m) ∈ (logResponse st r).logs) ∧
      (∀ m, r.responseHeadersFetch = .error m →
        (responseNetEvent st r).responseHeaders = .unavailable unavailableSentinel ∧
        LogEntry.warning ("Failed to fetch response headers: " ++ m) ∈ (logResponse st r).logs) ∧
      (∀ m, r.cookiesFetch = .error m →
        (responseNetEvent st r).cookies = .unavailable unavailableSentinel ∧
        LogEntry.warning ("Failed to fetch cookies: " ++ m) ∈ (logResponse st r).logs) ∧
      (∀ m, r.securityFetch = .error m →
        (responseNetEvent st r).security = .unavailable unavailableSentinel ∧
        LogEntry.warning ("Failed to fetch security details: " ++ m) ∈ (logResponse st r).logs) ∧
      (∀ m, r.serverFetch = .error m →
        (responseNetEvent st r).server = .unavailable unavailableSentinel ∧
        LogEntry.warning ("Failed to fetch server address: " ++ m) ∈ (logResponse st r).logs) ∧
      (∀ m, bodyFailure r = some m →
        (responseNetEvent st r).responseBody = .unavailable bodyUnavailableSentinel ∧
        LogEntry.warning ("Failed to fetch response body: " ++ m) ∈ (logResponse st r).logs)) ∧
    (∀ (st : SessionState) (q : RequestEvent),
      (logRequest st q).networkData
        = st.networkData ++ [NetworkEvent.request (requestNetEvent st q)] ∧
      (∀ m, q.headersFetch = .error m →
        (requestNetEvent st q).headers = .unavailable unavailableSentinel ∧
        LogEntry.warning ("Failed to fetch request headers: " ++ m) ∈ (logRequest st q).logs) ∧
      (∀ m, q.cookiesFetch = .error m →
        (requestNetEvent st q).cookies = .unavailable unavailableSentinel ∧
        LogEntry.warning ("Failed to fetch cookies: " ++ m) ∈ (logRequest st q).logs)) ∧
    (∀ inp : BrowseInputs,
      (runSession inp).networkData.length = (inp.events.filter isNetEvent).length) := by
  refine ⟨?_, ?_, ?_⟩
  · intro st r
    refine ⟨logResponse_networkData st r, ?_, ?_, ?_, ?_, ?_, ?_⟩
    · intro m hm
      constructor
      · show capturedValue unavailableSentinel r.requestHeadersFetch = _
        rw [hm]; rfl
      · rw [logResponse_logs]
        exact warn_requestHeaders_mem st.logs r m hm
    · intro m hm
      constructor
      · show capturedValue unavailableSentinel r.responseHeadersFetch = _
        rw [hm]; rfl
      · rw [logResponse_logs]
        exact warn_responseHeaders_mem st.logs r m hm
    · intro m hm
      constructor
      · show capturedValue unavailableSentinel r.cookiesFetch = _
        rw [hm]; rfl
      · rw [logResponse_logs]
        exact warn_cookies_mem st.logs r m hm
    · intro m hm
      constructor
      · show capturedValue unavailableSentinel r.securityFetch = _
        rw [hm]; rfl
      · rw [logResponse_logs]
        exact warn_security_mem st.logs r m hm
    · intro m hm
      constructor
      · show capturedValue unavailableSentinel r.serverFetch = _
        rw [hm]; rfl
      · rw [logResponse_logs]
        exact warn_server_mem st.logs r m hm
    · intro m hm
      constructor
      · exact bodyValue_of_failure r m hm
      · rw [logResponse_logs]
        exact warn_body_mem st.logs r m hm
  · intro st q
    refine ⟨logRequest_networkData st q, ?_, ?_⟩
    · intro m hm
      constructor
      · show capturedValue unavailableSentinel q.headersFetch = _
        rw [hm]; rfl
      · rw [logRequest_logs]
        apply mem_captureLog_of_mem
        exact warning_mem_captureLog st.logs "request headers" m q.headersFetch hm
    · intro m hm
      constructor
      · show capturedValue unavailableSentinel q.cookiesFetch = _
        rw [hm]; rfl
      · rw [logRequest_logs]
        exact warning_mem_captureLog _ "cookies" m q.cookiesFetch hm
  · intro inp
    rw [runSession_networkData, foldl_netlen]
    simp [initState]

/-- A response event on which every Playwright capture call raises. -/
def failAllResp : ResponseEvent :=
  { rid := 0
    url := "https://x"
    requestUrl := "https://x"
    status := 200
    resourceType := "document"
    redirectedFrom := none
    redirectedTo := none
    timing := []
    requestHeadersFetch := .error "e1"
    responseHeadersFetch := .error "e2"
    textFetch := .error "e3"
    bodyFetch := .error "e4"
    cookiesFetch := .error "e5"
    securityFetch := .error "e6"
    serverFetch := .error "e7" }

/-- A request event on which every Playwright capture call raises. -/
def failAllReq : RequestEvent :=
  { rid := 0
    url := "https://x"
    method := "GET"
    resourceType := "document"
    redirectedFrom := none
    redirectedTo := none
    timing := []
    headersFetch := .error "e8"
    cookiesFetch := .error "e9" }

/-- Witness for C1: with every capture failing, fields are sentinels, the
warnings are logged, the records are appended, and the snapshot holds one
network event per notification. -/
theorem capture_failure_isolation_witness :
    (logResponse initState failAllResp).networkData
      = [NetworkEvent.response (responseNetEvent initState failAllResp)] ∧
    (responseNetEvent initState failAllResp).requestHeaders
      = .unavailable unavailableSentinel ∧
    LogEntry.warning ("Failed to fetch request headers: " ++ "e1")
      ∈ (logResponse initState failAllResp).logs ∧
    (responseNetEvent initState failAllResp).responseBody
      = .unavailable bodyUnavailableSentinel ∧
    LogEntry.warning ("Failed to fetch response body: " ++ strGetAttributeError)
      ∈ (logResponse initState failAllResp).logs ∧
    (requestNetEvent initState failAllReq).headers = .unavailable unavailableSentinel ∧
    LogEntry.warning ("Failed to fetch cookies: " ++ "e9")
      ∈ (logRequest initState failAllReq).logs ∧
    (runSession { sampleInputs with
        events := [PageEvent.request failAllReq, PageEvent.response failAllResp] }).networkData.length
      = 2 := by
  have hr := capture_failure_isolation.1 initState failAllResp
  have hq := capture_failure_isolation.2.1 initState failAllReq
  have hs := capture_failure_isolation.2.2
    { sampleInputs with
      events := [PageEvent.request failAllReq, PageEvent.response failAllResp] }
  refine ⟨by simpa using hr.1, (hr.2.1 "e1" rfl).1, (hr.2.1 "e1" rfl).2,
    (hr.2.2.2.2.2.2 strGetAttributeError rfl).1,
    (hr.2.2.2.2.2.2 strGetAttributeError rfl).2,
    (hq.2.1 "e8" rfl).1, (hq.2.2 "e9" rfl).2, ?_⟩
  rw [hs]
  rfl

/-! ## C4: navigation timeout -/

/-- Claim C4 (amended): a navigation timeout never fails the session — it
is recorded as a log entry (tagged as a console message with the text
`Navigation timed out`, not as a warning or error), and the session still
captures the screenshot, thumbnail and video and assembles the Snapshot. -/
theorem navigation_timeout_degrades_to_log :
    ∀ inp : BrowseInputs, inp.navTimedOut = true →
      LogEntry.consoleMessage "Navigation timed out" ∈ (runSession inp).logs ∧
      (runSession inp).screenshot = inp.screenshotB64 ∧
      (runSession inp).thumbnail = inp.thumbnailB64 ∧
      (runSession inp).video = inp.videoB64 ∧
      (runSession inp).networkData = (inp.events.foldl processEvent initState).networkData := by
  intro inp h
  refine ⟨?_, ?_, ?_, ?_, ?_⟩ <;> simp [runSession, h]

/-- Witness for C4 at a concrete timed-out session. -/
theorem navigation_timeout_witness :
    timeoutInputs.navTimedOut = true ∧
    LogEntry.consoleMessage "Navigation timed out" ∈ (runSession timeoutInputs).logs :=
  ⟨rfl, (navigation_timeout_degrades_to_log timeoutInputs rfl).1⟩

/-- Counterexample to C4 as stated: in a session whose only degradation is
the navigation timeout, the snapshot's logs hold exactly the
console-message entry, so no log entry carries a warning or error tag as
the claim requires. -/
theorem navigation_timeout_console_counterexample :
    (runSession timeoutInputs).logs = [LogEntry.consoleMessage "Navigation timed out"] ∧
    ∀ e ∈ (runSession timeoutInputs).logs, isWarningOrError e = false := by
  have h1 : (runSession timeoutInputs).logs
      = [LogEntry.consoleMessage "Navigation timed out"] := rfl
  exact ⟨h1, by rw [h1]; decide⟩

/-! ## C6: response-body classification -/

/-- Claim C6: for a captured response whose headers were read, the stored
body is the raw text exactly when the content-type contains `text` or
`json`, the base64 encoding of the raw bytes otherwise, and the
unavailable sentinel when the chosen fetch fails; the record is appended
either way. -/
theorem body_classification_by_content_type :
    ∀ (st : SessionState) (r : ResponseEvent) (hs : List (String × String)),
      r.responseHeadersFetch = .ok hs →
      ((strContains (headerGet hs "content-type" "") "text"
          || strContains (headerGet hs "content-type" "") "json") = true →
        (∀ t, r.textFetch = .ok t → (responseNetEvent st r).responseBody = .ok t) ∧
        (∀ m, r.textFetch = .error m →
          (responseNetEvent st r).responseBody = .unavailable bodyUnavailableSentinel)) ∧
      ((strContains (headerGet hs "content-type" "") "text"
          || strContains (headerGet hs "content-type" "") "json") = false →
        (∀ bs, r.bodyFetch = .ok bs →
          (responseNetEvent st r).responseBody = .ok (base64Encode bs)) ∧
        (∀ m, r.bodyFetch = .error m →
          (responseNetEvent st r).responseBody = .unavailable bodyUnavailableSentinel)) ∧
      (logResponse st r).networkData
        = st.networkData ++ [NetworkEvent.response (responseNetEvent st r)] := by
  intro st r hs hhs
  have hmode : bodyTextMode (capturedValue unavailableSentinel r.responseHeadersFetch)
      = some (strContains (headerGet hs "content-type" "") "text"
          || strContains (headerGet hs "content-type" "") "json") := by
    rw [hhs]; rfl
  refine ⟨?_, ?_, logResponse_networkData st r⟩
  · intro hcond
    constructor
    · intro t ht
      show bodyValue (capturedValue unavailableSentinel r.responseHeadersFetch)
        r.textFetch r.bodyFetch = _
      rw [bodyValue.eq_def, hmode, hcond, ht]
    · intro m hm
      show bodyValue (capturedValue unavailableSentinel r.responseHeadersFetch)
        r.textFetch r.bodyFetch = _
      rw [bodyValue.eq_def, hmode, hcond, hm]
  · intro hcond
    constructor
    · intro bs hbs
      show bodyValue (capturedValue unavailableSentinel r.responseHeadersFetch)
        r.textFetch r.bodyFetch = _
      rw [bodyValue.eq_def, hmode, hcond, hbs]
    · intro m hm
      show bodyValue (capturedValue unavailableSentinel r.responseHeadersFetch)
        r.textFetch r.bodyFetch = _
      rw [bodyValue.eq_def, hmode, hcond, hm]

/-- A captured response with a textual content type. -/
def textResp : ResponseEvent :=
  { rid := 1
    url := "https://x/a"
    requestUrl := "https://x/a"
    status := 200
    resourceType := "document"
    redirectedFrom := none
    redirectedTo := none
    timing := []
    requestHeadersFetch := .ok []
    responseHeadersFetch := .ok [("content-type", "text/html")]
    textFetch := .ok "hello"
    bodyFetch := .ok [104, 105]
    cookiesFetch := .ok []
    securityFetch := .ok none
    serverFetch := .ok none }

/-- The same capture with a binary content type. -/
def binResp : ResponseEvent :=
  { textResp with responseHeadersFetch := .ok [("content-type", "image/png")] }

/-- Witness for C6: a `text/html` response stores its raw text, an
`image/png` response stores the base64 of its bytes. -/
theorem body_classification_witness :
    (responseNetEvent initState textResp).responseBody = .ok "hello" ∧
    (responseNetEvent initState binResp).responseBody = .ok (base64Encode [104, 105]) := by
  have h1 := body_classification_by_content_type initState textResp
    [("content-type", "text/html")] rfl
  have h2 := body_classification_by_content_type initState binResp
    [("content-type", "image/png")] rfl
  exact ⟨(h1.1 (by decide)).1 "hello" rfl, ((h2.2.1 (by decide)).1 [104, 105] rfl)⟩

end Scraproxy
